import Mathlib

/-!
# Verification of the puppeteer-firefox frame manager

A shallow embedding of `experimental/puppeteer-firefox/lib/FrameManager.js`:
the frame tree owned by `FrameManager`, its five protocol event handlers,
`frames()`, `normalizeWaitUntil`, the decision structure of `Frame.goto`,
and the `WaitTask` polling engine (`constructor` validation, `rerun`,
`terminate`, `Frame._detach`).

Mutable JS objects are modelled as an arena: frames are records stored in an
insertion-ordered association list keyed by frame id (mirroring the JS `Map`),
with parent/child links stored as frame ids.  A handler that throws partway
through is modelled by `Except`, with the error carrying the partially
mutated state (JS mutations performed before the throw persist).
-/

namespace Puppeteer

/-! ## String helpers

JS `String.prototype.includes` and `String.prototype.toLowerCase`, defined at
the character-list level so that they evaluate by kernel reduction. -/

/-- Character-list version of "`pat` is a prefix of `l`". -/
def startsWithL : List Char → List Char → Bool
  | [], _ => true
  | _ :: _, [] => false
  | p :: ps, c :: cs => p == c && startsWithL ps cs

/-- Character-list version of "`pat` occurs as a contiguous sublist of `l`". -/
def occursIn (pat : List Char) : List Char → Bool
  | [] => startsWithL pat []
  | c :: cs => startsWithL pat (c :: cs) || occursIn pat cs

/-- JS `s.includes(pat)`. -/
def includesStr (s pat : String) : Bool := occursIn pat.data s.data

/-- JS `s.toLowerCase()` (ASCII, which covers the lifecycle event names). -/
def toLowerStr (s : String) : String := String.mk (s.data.map Char.toLower)

/-! ## Errors

JS exception values thrown by the code under verification.  `typeError` is
the runtime `TypeError` raised by dereferencing `null`/`undefined`;
`jsError` is an explicitly `throw`n / `assert`ed `Error`;
`timeoutError` is the `TimeoutError` subclass from `Errors.js`. -/

inductive JSError
  | typeError (msg : String)
  | jsError (msg : String)
  | timeoutError (msg : String)
  deriving DecidableEq, Repr

/-- Modelled from the spec: `helper.assert` (helper.js is not under `src/`);
per the spec's error taxonomy an invariant violation is "fatal and
non-recoverable", raised synchronously — so `assert(cond, msg)` throws
`Error(msg)` when `cond` is falsy and otherwise does nothing. -/
def jsAssert (cond : Bool) (msg : String) : Except JSError Unit :=
  if cond then .ok () else .error (.jsError msg)

/-! ## WaitTask: settlement and the polling engine

From `class WaitTask` (FrameManager.js lines 650–740).  A task's `promise`
settles at most once: the first `_resolve`/`_reject` wins. -/

/-- A value returned from the remote evaluation (a `JSHandle`): all the driver
code observes of it is its identity and its JS truthiness
(via `frame.evaluate(s => !s, success)`). -/
structure JSVal where
  id : Nat
  truthy : Bool
  deriving DecidableEq, Repr

inductive Settlement
  | pending
  | resolved (v : JSVal)
  | rejected (e : JSError)
  deriving DecidableEq, Repr

/-- The driver-side state of one `WaitTask`. -/
structure WaitTask where
  runCount : Nat := 0
  terminated : Bool := false
  settlement : Settlement := .pending
  deriving DecidableEq, Repr

/-- `this._resolve(v)`: settles the promise only if it is still pending. -/
def promiseResolve (t : WaitTask) (v : JSVal) : WaitTask :=
  match t.settlement with
  | .pending => { t with settlement := .resolved v }
  | _ => t

/-- `this._reject(e)`: settles the promise only if it is still pending. -/
def promiseReject (t : WaitTask) (e : JSError) : WaitTask :=
  match t.settlement with
  | .pending => { t with settlement := .rejected e }
  | _ => t

/-- `WaitTask.terminate(error)` (lines 689–693): mark terminated and reject.
(The `_cleanup` part — clearing the timer and removing the task from the
frame's set — is modelled at the frame level.) -/
def WaitTask.terminate (t : WaitTask) (e : JSError) : WaitTask :=
  promiseReject { t with terminated := true } e

/-- The polling option passed to the `WaitTask` constructor: a JS string, a JS
number (modelled as a rational), or any other JS value. -/
inductive PollingOpt
  | str (s : String)
  | num (q : Rat)
  | other
  deriving DecidableEq

/-- The polling validation at the top of `WaitTask`'s constructor
(lines 659–664): strings must be `'raf'` or `'mutation'` (assert),
numbers must be strictly positive (assert), anything else throws. -/
def validatePolling : PollingOpt → Except JSError Unit
  | .str s => jsAssert (s == "raf" || s == "mutation") ("Unknown polling option: " ++ s)
  | .num q => jsAssert (decide (0 < q)) "Cannot poll with non-positive interval"
  | .other => .error (.jsError "Unknown polling options")

/-- `new WaitTask(...)` up to its state initialization: construction succeeds
(and yields the fresh task with run count 0, pending, not terminated)
exactly when the polling option validates. -/
def waitTaskNew (polling : PollingOpt) : Except JSError WaitTask := do
  let _ ← validatePolling polling
  .ok {}

/-- The message fragment that identifies a destroyed-execution-context
evaluation failure (line 722). -/
def ctxDestroyedMsg : String := "Execution context was destroyed"

/-- What the remote environment does with one `rerun` attempt: the
`evaluateHandle` call either throws (`failure msg`) or returns a handle
`v`; `checkFails` records whether the follow-up falsy check
`frame.evaluate(s => !s, success)` itself throws (context changed again). -/
inductive EvalResult
  | failure (msg : String)
  | evaluated (v : JSVal) (checkFails : Bool)
  deriving DecidableEq, Repr

/-- What one completed attempt did to the task. -/
inductive RerunAction
  | discarded
  | retry
  | settled
  deriving DecidableEq, Repr

/-- The completion half of `WaitTask.rerun` (lines 706–733): everything after
`await evaluateHandle` resumes, given the run count `rc` captured at the top
of this attempt and the current task state `t`.
Order, as in the source: (1) if terminated or superseded, discard;
(2) on a returned value, if the falsy check throws or reports falsy, discard;
(3) on a context-destroyed error, retry; (4) otherwise reject the error or
resolve the value, and clean up. -/
def processCompletion (t : WaitTask) (rc : Nat) (r : EvalResult) : WaitTask × RerunAction :=
  if t.terminated || rc != t.runCount then (t, .discarded)
  else
    match r with
    | .evaluated v checkFails =>
        if checkFails || !v.truthy then (t, .discarded)
        else (promiseResolve t v, .settled)
    | .failure msg =>
        if includesStr msg ctxDestroyedMsg then (t, .retry)
        else (promiseReject t (.jsError msg), .settled)

/-- One `rerun` invocation: increment the run counter, capture it, await the
evaluation (its outcome `r` supplied by the environment), then run the
completion logic. -/
def rerunStep (t : WaitTask) (r : EvalResult) : WaitTask × RerunAction :=
  let t1 : WaitTask := { t with runCount := t.runCount + 1 }
  processCompletion t1 t1.runCount r

/-- Run the `rerun` loop sequentially against a script of evaluation
outcomes: a `retry` action (context destroyed) immediately issues the next
attempt; any other action ends the loop. -/
def runAttempts (t : WaitTask) : List EvalResult → WaitTask
  | [] => t
  | r :: rest =>
      match rerunStep t r with
      | (t', .retry) => runAttempts t' rest
      | (t', _) => t'

/-! ## Frame records and the manager state

From `class Frame`'s constructor (lines 112–134) and `class FrameManager`'s
constructor (lines 17–32).  Object references become frame ids; the JS `Map`
becomes an insertion-ordered association list; the JS `Set`s (`_children`,
`_firedEvents`) become insertion-ordered lists without duplicates. -/

/-- One frame record (the fields of a `Frame` object that the code under
verification reads or writes).  `domContentLoadedFired`/`loadFired` are the
flags written by `_onNavigationCommitted`; `documentPromise` records whether
the per-navigation document handle is cached. -/
structure Frame where
  frameId : String
  url : String := ""
  name : String := ""
  parentFrame : Option String := none
  children : List String := []
  isDetached : Bool := false
  firedEvents : List String := []
  waitTasks : List WaitTask := []
  documentPromise : Bool := false
  lastCommittedNavigationId : Option Nat := none
  domContentLoadedFired : Bool := false
  loadFired : Bool := false
  deriving DecidableEq, Repr

/-- `new Frame(session, frameManager, networkManager, page, frameId, ...)`. -/
def newFrame (frameId : String) : Frame := { frameId := frameId }

/-- The `FrameManager`'s own mutable state: `_mainFrame` and the id-keyed
`_frames` map. -/
structure FrameManager where
  mainFrame : Option String := none
  frames : List (String × Frame) := []
  deriving DecidableEq, Repr

/-- The state right after `new FrameManager(...)`. -/
def initFM : FrameManager := {}

/-- JS `Map.prototype.get`. -/
def mapGet : List (String × Frame) → String → Option Frame
  | [], _ => none
  | (k, v) :: rest, key => if k = key then some v else mapGet rest key

/-- `this._frames.get(x)` where `x` itself may be `undefined`
(`params.parentFrameId` is absent on the main frame's attach event). -/
def mapGetOpt (m : List (String × Frame)) : Option String → Option Frame
  | none => none
  | some k => mapGet m k

/-- JS `Map.prototype.set`: replace in place if the key is present
(insertion order kept; a `Map`'s keys are unique, so replacing the first
occurrence is the same), else append. -/
def mapSet : List (String × Frame) → String → Frame → List (String × Frame)
  | [], key, v => [(key, v)]
  | (k, w) :: rest, key, v =>
      if k = key then (key, v) :: rest else (k, w) :: mapSet rest key v

/-- JS `Map.prototype.delete` (deleting an absent key is a no-op). -/
def mapDelete : List (String × Frame) → String → List (String × Frame)
  | [], _ => []
  | (k, w) :: rest, key =>
      if k = key then mapDelete rest key else (k, w) :: mapDelete rest key

/-- JS `Set.prototype.add` on a set of strings. -/
def setAdd (l : List String) (s : String) : List String :=
  if s ∈ l then l else l ++ [s]

/-! ## Event handlers

Each protocol-event handler is a synchronous state transition that may also
emit domain notifications.  A JS throw partway through the handler is an
`Except.error` carrying the partially mutated state. -/

/-- A domain notification emitted by the manager; the frame-carrying events
carry the frame record exactly as the JS `emit` passes the frame object. -/
inductive DomainEvent
  | frameAttachedE (f : Frame)
  | frameDetachedE (f : Frame)
  | frameNavigatedE (f : Frame)
  | loadE
  | domContentLoadedE
  deriving DecidableEq, Repr

/-- A throw escaping a handler: the error plus the state the mutations made
before the throw left behind. -/
structure Fault where
  err : JSError
  state : FrameManager
  deriving DecidableEq, Repr

/-- A handler's normal return: the new state, the notifications emitted, and
(for detach) the wait tasks that `terminate` was called on, in order. -/
structure HandlerOk where
  state : FrameManager
  events : List DomainEvent
  detachedTasks : List WaitTask := []
  deriving DecidableEq, Repr

/-- `FrameManager._onFrameAttached(params)` (lines 69–81): build a fresh
frame; if `parentFrameId` resolves, link it as a child; otherwise assert that
no main frame exists and install it as the main frame; index it; emit
`FrameAttached`. -/
def onFrameAttached (st : FrameManager) (frameId : String) (parentFrameId : Option String) :
    Except Fault HandlerOk :=
  let frame := newFrame frameId
  match mapGetOpt st.frames parentFrameId, parentFrameId with
  | some parent, some pid =>
      let frame := { frame with parentFrame := some pid }
      let parent := { parent with children := parent.children ++ [frameId] }
      let frames := mapSet (mapSet st.frames pid parent) frameId frame
      .ok { state := { st with frames := frames }, events := [.frameAttachedE frame] }
  | _, _ =>
      if st.mainFrame.isSome then
        .error ⟨.jsError "INTERNAL ERROR: re-attaching main frame!", st⟩
      else
        .ok { state := { mainFrame := some frameId, frames := mapSet st.frames frameId frame },
              events := [.frameAttachedE frame] }

/-- `Frame._detach()` (lines 265–271), run against the manager's map `m` (the
parent is reached through its id): delete this frame from its parent's
children (a `TypeError` if the parent reference is `null`), clear the parent
reference, set the detached flag, and terminate every outstanding wait task
with the detachment error.  Returns the updated map, the mutated frame
record, and the terminated task objects. -/
def frameDetach (m : List (String × Frame)) (f : Frame) :
    Except JSError (List (String × Frame) × Frame × List WaitTask) :=
  match f.parentFrame with
  | none => .error (.typeError "Cannot read property _children of null")
  | some pid =>
      let m' :=
        match mapGet m pid with
        | none => m
        | some parent => mapSet m pid { parent with children := parent.children.erase f.frameId }
      let tasks := f.waitTasks.map
        (fun t => t.terminate (.jsError "waitForFunction failed: frame got detached."))
      .ok (m', { f with parentFrame := none, isDetached := true, waitTasks := [] }, tasks)

/-- `FrameManager._onFrameDetached(params)` (lines 83–88): look the frame up,
delete it from the index, run `frame._detach()` (a `TypeError` when the
lookup returned `undefined`, and the index deletion — a no-op — has already
happened), emit `FrameDetached`. -/
def onFrameDetached (st : FrameManager) (frameId : String) : Except Fault HandlerOk :=
  match mapGet st.frames frameId with
  | none =>
      .error ⟨.typeError "Cannot read property _detach of undefined",
              { st with frames := mapDelete st.frames frameId }⟩
  | some frame =>
      let st1 : FrameManager := { st with frames := mapDelete st.frames frameId }
      match frameDetach st1.frames frame with
      | .error e => .error ⟨e, st1⟩
      | .ok (m', frame', tasks) =>
          .ok { state := { st1 with frames := m' },
                events := [.frameDetachedE frame'],
                detachedTasks := tasks }

/-- `Frame._navigated(url, name, navigationId)` (lines 273–279). -/
def frameNavigated (f : Frame) (url name : String) (navigationId : Nat) : Frame :=
  { f with url := url, name := name, lastCommittedNavigationId := some navigationId,
           documentPromise := false, firedEvents := [] }

/-- `FrameManager._onNavigationCommitted(params)` (lines 55–61): a `TypeError`
on an unknown frame id; otherwise run `_navigated`, clear the two lifecycle
flags, emit `FrameNavigated`. -/
def onNavigationCommitted (st : FrameManager) (frameId url name : String) (navigationId : Nat) :
    Except Fault HandlerOk :=
  match mapGet st.frames frameId with
  | none => .error ⟨.typeError "Cannot read property _navigated of undefined", st⟩
  | some frame =>
      let frame := frameNavigated frame url name navigationId
      let frame := { frame with domContentLoadedFired := false, loadFired := false }
      .ok { state := { st with frames := mapSet st.frames frameId frame },
            events := [.frameNavigatedE frame] }

/-- `FrameManager._onSameDocumentNavigation(params)` (lines 63–67): a
`TypeError` on an unknown frame id; otherwise set `_url` only and emit
`FrameNavigated`. -/
def onSameDocumentNavigation (st : FrameManager) (frameId url : String) :
    Except Fault HandlerOk :=
  match mapGet st.frames frameId with
  | none => .error ⟨.typeError "Cannot set property _url of undefined", st⟩
  | some frame =>
      let frame := { frame with url := url }
      .ok { state := { st with frames := mapSet st.frames frameId frame },
            events := [.frameNavigatedE frame] }

/-- `FrameManager._onEventFired({frameId, name})` (lines 90–99): a `TypeError`
on an unknown frame id; otherwise add the lowercased name to the frame's
fired events, and on the main frame translate `load` / `DOMContentLoaded`
into manager-level notifications. -/
def onEventFired (st : FrameManager) (frameId name : String) : Except Fault HandlerOk :=
  match mapGet st.frames frameId with
  | none => .error ⟨.typeError "Cannot read property _firedEvents of undefined", st⟩
  | some frame =>
      let frame := { frame with firedEvents := setAdd frame.firedEvents (toLowerStr name) }
      let st' : FrameManager := { st with frames := mapSet st.frames frameId frame }
      let events :=
        if st.mainFrame = some frameId then
          if name = "load" then [DomainEvent.loadE]
          else if name = "DOMContentLoaded" then [DomainEvent.domContentLoadedE]
          else []
        else []
      .ok { state := st', events := events }

/-! ## Reachability -/

/-- One protocol event as delivered by the session. -/
inductive ProtocolEvent
  | frameAttached (frameId : String) (parentFrameId : Option String)
  | frameDetached (frameId : String)
  | navigationCommitted (frameId url name : String) (navigationId : Nat)
  | sameDocumentNavigation (frameId url : String)
  | eventFired (frameId name : String)
  deriving DecidableEq, Repr

/-- Dispatch one protocol event; the state after a handler that threw is the
partially mutated state the throw left behind. -/
def step (st : FrameManager) (e : ProtocolEvent) : FrameManager :=
  let r : Except Fault HandlerOk :=
    match e with
    | .frameAttached id pid => onFrameAttached st id pid
    | .frameDetached id => onFrameDetached st id
    | .navigationCommitted id url name nav => onNavigationCommitted st id url name nav
    | .sameDocumentNavigation id url => onSameDocumentNavigation st id url
    | .eventFired id name => onEventFired st id name
  match r with
  | .ok ok => ok.state
  | .error f => f.state

/-- The state after a sequence of protocol events from a fresh manager. -/
def runEvents (evs : List ProtocolEvent) : FrameManager :=
  evs.foldl step initFM

/-- A manager state is reachable if some protocol-event sequence produces it. -/
def Reachable (st : FrameManager) : Prop :=
  ∃ evs, runEvents evs = st

/-! ## `frames()`

`FrameManager.frames()` (lines 42–53): `collect(this._mainFrame)` pushes the
frame and recurses into its children.  In the arena model the recursion
descends through the id map, so it takes fuel; in JS the recursion follows
direct object references and cannot miss, so `none` from `collectFrames`
(fuel exhausted or dangling child id) is a model artifact, never the code
returning a value.  When `_mainFrame` is `null`, `collect(null)` pushes
`null` and then dereferences `null._children`: a `TypeError`. -/

/-- The inner `collect` of `frames()`, keyed by id with fuel. -/
def collectFrames (st : FrameManager) : Nat → String → Option (List String)
  | 0, _ => none
  | fuel + 1, id =>
      match mapGet st.frames id with
      | none => none
      | some f => do
          let ls ← f.children.mapM (collectFrames st fuel)
          pure (id :: ls.flatten)

/-- `FrameManager.frames()`. -/
def framesFn (st : FrameManager) (fuel : Nat) : Except JSError (List String) :=
  match st.mainFrame with
  | none => .error (.typeError "Cannot read property _children of null")
  | some id =>
      match collectFrames st fuel id with
      | some l => .ok l
      | none => .error (.jsError "model artifact: fuel exhausted or dangling child id")

/-- A specification-side frame tree: what the arena looks like when it is
actually tree-shaped. -/
inductive FrameTree
  | node (id : String) (children : List FrameTree)

/-- Root id of a spec tree. -/
def FrameTree.rootId : FrameTree → String
  | .node id _ => id

mutual

/-- Pre-order traversal: root first, then each child subtree depth-first, in
order. -/
def FrameTree.preorder : FrameTree → List String
  | .node id cs => id :: FrameTree.preorderList cs

def FrameTree.preorderList : List FrameTree → List String
  | [] => []
  | t :: ts => FrameTree.preorder t ++ FrameTree.preorderList ts

end

mutual

/-- Number of nodes in a spec tree. -/
def FrameTree.size : FrameTree → Nat
  | .node _ cs => 1 + FrameTree.sizeList cs

def FrameTree.sizeList : List FrameTree → Nat
  | [] => 0
  | t :: ts => FrameTree.size t + FrameTree.sizeList ts

end

/-- Total number of descendants of the root of a spec tree. -/
def FrameTree.descendants : FrameTree → Nat
  | .node _ cs => FrameTree.sizeList cs

mutual

/-- Height of a spec tree (number of nodes on a longest root-leaf path). -/
def FrameTree.height : FrameTree → Nat
  | .node _ cs => 1 + FrameTree.heightList cs

def FrameTree.heightList : List FrameTree → Nat
  | [] => 0
  | t :: ts => max (FrameTree.height t) (FrameTree.heightList ts)

end

/-- The arena `st` realizes the spec tree `t`: the root id is indexed, its
stored children ids are exactly the root ids of `t`'s child subtrees in
order, and each child subtree is realized in turn. -/
inductive Represents (st : FrameManager) : FrameTree → Prop
  | node (id : String) (cs : List FrameTree) (f : Frame)
      (hf : mapGet st.frames id = some f)
      (hc : f.children = cs.map FrameTree.rootId)
      (hcs : ∀ c ∈ cs, Represents st c) :
      Represents st (.node id cs)

/-! ## `normalizeWaitUntil` and `goto` -/

/-- The `waitUntil` argument: a single JS string or an array of JS strings. -/
inductive WaitUntilArg
  | single (s : String)
  | array (l : List String)
  deriving DecidableEq

/-- `normalizeWaitUntil(waitUntil)` (lines 835–843): wrap a non-array in a
one-element array; throw on the first condition that is neither `'load'` nor
`'domcontentloaded'`; return the array. -/
def normalizeWaitUntil (waitUntil : WaitUntilArg) : Except JSError (List String) :=
  let l := match waitUntil with
    | .single s => [s]
    | .array l => l
  match l.find? (fun c => !(c == "load" || c == "domcontentloaded")) with
  | some bad => .error (.jsError ("Unknown waitUntil condition: " ++ bad))
  | none => .ok l

/-- JS truthiness of the optional `navigationId` in the `Page.navigate`
reply: absent (`undefined`) and `0` are falsy. -/
def navIdFalsy : Option Nat → Bool
  | none => true
  | some n => n == 0

/-- How a `goto` call concludes, as far as its synchronous decision structure
goes.  `noResponse` is the early `return` with no value: no
`NavigationWatchdog` is constructed and no timer has been armed at that
point.  `raced` records that a watchdog was constructed for the returned
navigation id and url with the normalized conditions, with a timeout timer
armed exactly when the timeout value is truthy. -/
inductive GotoResult
  | noResponse
  | raced (navigationId : Nat) (url : String) (waitUntil : List String) (timerArmed : Bool)
  deriving DecidableEq

/-- `Frame.goto(url, options)` (lines 192–220), up to the race: normalize
`waitUntil` (throws on a bad condition before anything else happens), send
`Page.navigate` (its reply's `navigationId` supplied by the environment),
return immediately if the id is falsy, otherwise arm the timer and construct
the watchdog. -/
def gotoPlan (url : String) (timeout : Nat) (waitUntil : WaitUntilArg)
    (navReply : Option Nat) : Except JSError GotoResult := do
  let normalized ← normalizeWaitUntil waitUntil
  if navIdFalsy navReply then
    .ok .noResponse
  else
    .ok (.raced (navReply.getD 0) url normalized (timeout != 0))

/-! ## Association-list map lemmas -/

theorem mapGet_mapSet_self (m : List (String × Frame)) (k : String) (v : Frame) :
    mapGet (mapSet m k v) k = some v := by
  induction m with
  | nil => simp [mapSet, mapGet]
  | cons p rest ih =>
      obtain ⟨k', w⟩ := p
      by_cases hp : k' = k <;> simp [mapSet, mapGet, hp, ih]

theorem mapGet_mapSet_ne (m : List (String × Frame)) (k : String) (v : Frame)
    (j : String) (h : j ≠ k) : mapGet (mapSet m k v) j = mapGet m j := by
  have hkj : ¬ k = j := fun hk => h hk.symm
  induction m with
  | nil => simp [mapSet, mapGet, hkj]
  | cons p rest ih =>
      obtain ⟨k', w⟩ := p
      by_cases hp : k' = k
      · subst hp
        simp [mapSet, mapGet, hkj]
      · simp [mapSet, mapGet, hp, ih]

theorem mapGet_mapDelete_self (m : List (String × Frame)) (k : String) :
    mapGet (mapDelete m k) k = none := by
  induction m with
  | nil => rfl
  | cons p rest ih =>
      obtain ⟨k', w⟩ := p
      by_cases hp : k' = k <;> simp [mapDelete, mapGet, hp, ih]

theorem mapGet_mapDelete_ne (m : List (String × Frame)) (k j : String) (h : j ≠ k) :
    mapGet (mapDelete m k) j = mapGet m j := by
  have hkj : ¬ k = j := fun hk => h hk.symm
  induction m with
  | nil => rfl
  | cons p rest ih =>
      obtain ⟨k', w⟩ := p
      by_cases hp : k' = k
      · subst hp
        simp [mapDelete, mapGet, hkj, ih]
      · simp [mapDelete, mapGet, hp, ih]

theorem mapDelete_of_get_none (m : List (String × Frame)) (k : String)
    (h : mapGet m k = none) : mapDelete m k = m := by
  induction m with
  | nil => rfl
  | cons p rest ih =>
      obtain ⟨k', w⟩ := p
      by_cases hp : k' = k
      · simp [mapGet, hp] at h
      · simp [mapGet, hp] at h
        simp [mapDelete, hp, ih h]

theorem mapGet_some_mem (m : List (String × Frame)) (k : String) (v : Frame)
    (h : mapGet m k = some v) : (k, v) ∈ m := by
  induction m with
  | nil => simp [mapGet] at h
  | cons p rest ih =>
      obtain ⟨k', w⟩ := p
      by_cases hp : k' = k
      · simp [mapGet, hp] at h
        subst hp; subst h
        exact List.mem_cons_self _ _
      · simp [mapGet, hp] at h
        exact List.mem_cons_of_mem _ (ih h)

theorem mem_mapSet (m : List (String × Frame)) (k : String) (v : Frame)
    (p : String × Frame) (h : p ∈ mapSet m k v) :
    p = (k, v) ∨ p ∈ m := by
  induction m with
  | nil => simpa [mapSet] using h
  | cons q rest ih =>
      obtain ⟨k', w⟩ := q
      by_cases hp : k' = k
      · simp [mapSet, hp] at h
        rcases h with h | h
        · left; exact h
        · right; exact List.mem_cons_of_mem _ h
      · simp [mapSet, hp] at h
        rcases h with h | h
        · right; simp [h]
        · rcases ih h with h' | h'
          · left; exact h'
          · right; exact List.mem_cons_of_mem _ h'

theorem mem_mapDelete (m : List (String × Frame)) (k : String)
    (p : String × Frame) (h : p ∈ mapDelete m k) : p ∈ m := by
  induction m with
  | nil => simp [mapDelete] at h
  | cons q rest ih =>
      obtain ⟨k', w⟩ := q
      by_cases hp : k' = k
      · simp [mapDelete, hp] at h
        exact List.mem_cons_of_mem _ (ih h)
      · simp [mapDelete, hp] at h
        rcases h with h | h
        · simp [h]
        · exact List.mem_cons_of_mem _ (ih h)

/-! ## Concrete example states used by witnesses -/

/-- A manager holding just a main frame. -/
def stMain : FrameManager :=
  { mainFrame := some "main", frames := [("main", newFrame "main")] }

/-- The main frame of `stMain` after a same-document navigation. -/
def frameMainNavW : Frame := { frameId := "main", url := "http://example.com/#x" }

/-- A parent frame with one child id. -/
def mainParentW : Frame := { frameId := "main", children := ["child"] }

/-- A child frame carrying one pending wait task. -/
def childFrameW : Frame :=
  { frameId := "child", parentFrame := some "main", waitTasks := [{}] }

/-- `childFrameW` after `_detach`. -/
def detachedChildW : Frame := { frameId := "child", isDetached := true }

/-- `mainParentW` after its child is unlinked. -/
def prunedMainW : Frame := { frameId := "main", children := ["child"].erase "child" }

/-- The detachment error `_detach` terminates wait tasks with. -/
def detachErrW : JSError := .jsError "waitForFunction failed: frame got detached."

/-- The terminated wait tasks of `childFrameW`. -/
def termTasksW : List WaitTask :=
  childFrameW.waitTasks.map (fun t => t.terminate detachErrW)

/-- A manager holding a main frame and one child frame that carries one
pending wait task. -/
def stChild : FrameManager :=
  { mainFrame := some "main",
    frames := [("main", mainParentW), ("child", childFrameW)] }

/-! ## Claim theorems -/

/-- Claim C8: `WaitTask` construction succeeds exactly for polling values
that are the literal strings `'raf'` or `'mutation'` or a strictly positive
number; a numeric polling value `≤ 0` and any non-string non-number polling
value are construction errors. -/
theorem waitTask_polling_validation (p : PollingOpt) :
    (∃ t, waitTaskNew p = Except.ok t) ↔
      (p = .str "raf" ∨ p = .str "mutation" ∨ ∃ q : Rat, p = .num q ∧ 0 < q) := by
  cases p with
  | str s =>
      by_cases h1 : s = "raf"
      · simp [waitTaskNew, validatePolling, jsAssert, h1, Bind.bind, Except.bind]
      · by_cases h2 : s = "mutation" <;>
          simp [waitTaskNew, validatePolling, jsAssert, h1, h2, Bind.bind, Except.bind]
  | num q =>
      by_cases hq : 0 < q <;>
        simp [waitTaskNew, validatePolling, jsAssert, hq, Bind.bind, Except.bind]
  | other => simp [waitTaskNew, validatePolling, Bind.bind, Except.bind]

/-- Claim C2: a `WaitTask` whose first attempt fails with a
context-destroyed evaluation error and whose second attempt returns a truthy
value (neither terminated nor superseded meanwhile) settles resolved with
that value, with run counter exactly 2. -/
theorem waitTask_ctx_destroyed_then_truthy (msg : String) (v : JSVal)
    (hmsg : includesStr msg ctxDestroyedMsg = true) (hv : v.truthy = true) :
    runAttempts {} [.failure msg, .evaluated v false] =
      { runCount := 2, terminated := false, settlement := .resolved v } := by
  simp [runAttempts, rerunStep, processCompletion, hmsg, hv, promiseResolve]

/-- Witness for C2 at a concrete error message and value. -/
theorem waitTask_ctx_destroyed_then_truthy_witness :
    runAttempts {} [.failure "Protocol error: Execution context was destroyed.",
                    .evaluated ⟨7, true⟩ false] =
      { runCount := 2, terminated := false, settlement := .resolved ⟨7, true⟩ } :=
  waitTask_ctx_destroyed_then_truthy _ _ (by decide) rfl

/-- Claim C3: a completion of an attempt that is stale — the task is already
terminated, or the attempt's captured run count no longer equals the task's
run counter — is discarded: the task state is unchanged and nothing settles. -/
theorem waitTask_stale_completion_inert (t : WaitTask) (rc : Nat) (r : EvalResult)
    (h : t.terminated = true ∨ rc ≠ t.runCount) :
    processCompletion t rc r = (t, .discarded) := by
  rcases h with h | h
  · simp [processCompletion, h]
  · have hb : (rc != t.runCount) = true := by simpa [bne_iff_ne] using h
    simp [processCompletion, hb]

/-- Witness for C3: a terminated task discards a truthy completion. -/
theorem waitTask_stale_completion_inert_witness :
    processCompletion ⟨5, true, .pending⟩ 5 (.evaluated ⟨1, true⟩ false) =
      (⟨5, true, .pending⟩, .discarded) :=
  waitTask_stale_completion_inert _ _ _ (Or.inl rfl)

/-- Claim C7: a `goto` whose navigate reply carries no navigation identifier
resolves immediately with no response and constructs no outcome detector and
no timer (the `noResponse` early return). -/
theorem goto_no_navigation_id (url : String) (timeout : Nat) (wu : WaitUntilArg)
    (l : List String) (h : normalizeWaitUntil wu = .ok l) :
    gotoPlan url timeout wu none = .ok .noResponse := by
  simp [gotoPlan, h, navIdFalsy, Bind.bind, Except.bind]

/-- Witness for C7 at a concrete url and options. -/
theorem goto_no_navigation_id_witness :
    gotoPlan "http://example.com/index.html" 30000 (.single "load") none =
      .ok .noResponse :=
  goto_no_navigation_id _ _ _ ["load"] rfl

/-- Claim C9: a same-document-navigation event for an indexed frame sets that
frame's url to the event's url and changes nothing else — fired events,
last-committed navigation id, name, children and the cached document handle
are unchanged, other frames are untouched — and emits `FrameNavigated`. -/
theorem sameDocNav_sets_url_only (st : FrameManager) (id url : String) (f : Frame)
    (hf : mapGet st.frames id = some f) :
    onSameDocumentNavigation st id url =
      .ok { state := { st with frames := mapSet st.frames id { f with url := url } },
            events := [.frameNavigatedE { f with url := url }] } ∧
    ({ f with url := url }).url = url ∧
    ({ f with url := url }).firedEvents = f.firedEvents ∧
    ({ f with url := url }).lastCommittedNavigationId = f.lastCommittedNavigationId ∧
    ({ f with url := url }).name = f.name ∧
    ({ f with url := url }).children = f.children ∧
    ({ f with url := url }).documentPromise = f.documentPromise ∧
    mapGet (mapSet st.frames id { f with url := url }) id = some { f with url := url } ∧
    ∀ j, j ≠ id → mapGet (mapSet st.frames id { f with url := url }) j = mapGet st.frames j := by
  refine ⟨?_, rfl, rfl, rfl, rfl, rfl, rfl, mapGet_mapSet_self .., fun j hj => mapGet_mapSet_ne _ _ _ _ hj⟩
  simp [onSameDocumentNavigation, hf]

/-- Witness for C9 on the single-main-frame state. -/
theorem sameDocNav_sets_url_only_witness :
    onSameDocumentNavigation stMain "main" "http://example.com/#x" =
      .ok { state := { stMain with frames := mapSet stMain.frames "main" frameMainNavW },
            events := [.frameNavigatedE frameMainNavW] } ∧
    frameMainNavW.url = "http://example.com/#x" ∧
    frameMainNavW.firedEvents = (newFrame "main").firedEvents ∧
    frameMainNavW.lastCommittedNavigationId = (newFrame "main").lastCommittedNavigationId ∧
    frameMainNavW.name = (newFrame "main").name ∧
    frameMainNavW.children = (newFrame "main").children ∧
    frameMainNavW.documentPromise = (newFrame "main").documentPromise ∧
    mapGet (mapSet stMain.frames "main" frameMainNavW) "main" = some frameMainNavW ∧
    ∀ j, j ≠ "main" →
      mapGet (mapSet stMain.frames "main" frameMainNavW) j = mapGet stMain.frames j :=
  sameDocNav_sets_url_only stMain "main" "http://example.com/#x" (newFrame "main") rfl

/-- Counterexample to claim C6 as stated: handling a frame-detached event for
an id that is not in the index is not a silent no-op — the handler throws a
`TypeError` (the `undefined` frame is dereferenced), here at the initial
manager state. -/
theorem detach_unknown_id_throws_cx :
    onFrameDetached initFM "frame-1" =
      .error ⟨.typeError "Cannot read property _detach of undefined", initFM⟩ := rfl

/-- Claim C6 (amended): handling a frame-detached event for an unknown id
throws a `TypeError` when the missing frame record is dereferenced; the
frame index and the main-frame reference at the point of the throw are
unchanged (the preceding `Map.delete` of an absent key is a no-op). -/
theorem detach_unknown_id_typeError (st : FrameManager) (id : String)
    (h : mapGet st.frames id = none) :
    onFrameDetached st id =
      .error ⟨.typeError "Cannot read property _detach of undefined", st⟩ := by
  simp [onFrameDetached, h, mapDelete_of_get_none st.frames id h]

/-- Witness for the amended C6 on a non-empty state. -/
theorem detach_unknown_id_typeError_witness :
    onFrameDetached stMain "other" =
      .error ⟨.typeError "Cannot read property _detach of undefined", stMain⟩ :=
  detach_unknown_id_typeError stMain "other" rfl

/-- Claim C10: handling a frame-detached event for the main frame (whose
parent reference is `null`) throws a null-dereference `TypeError` inside
`_detach` (which unconditionally reads the parent's children set) instead of
completing the detachment; only the preceding index deletion has happened. -/
theorem detach_main_frame_null_deref (st : FrameManager) (id : String) (f : Frame)
    (hf : mapGet st.frames id = some f) (hp : f.parentFrame = none) :
    onFrameDetached st id =
      .error ⟨.typeError "Cannot read property _children of null",
              { st with frames := mapDelete st.frames id }⟩ := by
  simp [onFrameDetached, frameDetach, hf, hp]

/-- Witness for C10 on the single-main-frame state. -/
theorem detach_main_frame_null_deref_witness :
    onFrameDetached stMain "main" =
      .error ⟨.typeError "Cannot read property _children of null",
              { mainFrame := some "main", frames := [] }⟩ :=
  detach_main_frame_null_deref stMain "main" (newFrame "main") rfl rfl

/-- Claim C5: handling frame-detached for an indexed frame whose parent is in
the index terminates all of its N outstanding wait tasks with the detachment
error, removes the frame from the index, unlinks it from the parent's
children, clears its parent reference and sets its detached flag. -/
theorem frame_detach_terminates_tasks (st : FrameManager) (fid : String) (f : Frame)
    (pid : String) (p : Frame)
    (hf : mapGet st.frames fid = some f)
    (hid : f.frameId = fid)
    (hpar : f.parentFrame = some pid)
    (hne : pid ≠ fid)
    (hp : mapGet st.frames pid = some p)
    (hpend : ∀ t ∈ f.waitTasks, t.settlement = .pending) :
    onFrameDetached st fid =
      .ok { state := { st with frames := mapSet (mapDelete st.frames fid) pid
                                             { p with children := p.children.erase fid } },
            events := [.frameDetachedE
                { f with parentFrame := none, isDetached := true, waitTasks := [] }],
            detachedTasks := f.waitTasks.map (fun t =>
              t.terminate (.jsError "waitForFunction failed: frame got detached.")) } ∧
    mapGet (mapSet (mapDelete st.frames fid) pid
        { p with children := p.children.erase fid }) fid = none ∧
    mapGet (mapSet (mapDelete st.frames fid) pid
        { p with children := p.children.erase fid }) pid
      = some { p with children := p.children.erase fid } ∧
    (f.waitTasks.map (fun t =>
        t.terminate (.jsError "waitForFunction failed: frame got detached."))).length
      = f.waitTasks.length ∧
    ∀ t' ∈ f.waitTasks.map (fun t =>
        t.terminate (.jsError "waitForFunction failed: frame got detached.")),
      t'.terminated = true ∧
      t'.settlement = .rejected (.jsError "waitForFunction failed: frame got detached.") := by
  refine ⟨?_, ?_, mapGet_mapSet_self .., List.length_map .., ?_⟩
  · have hlook : mapGet (mapDelete st.frames fid) pid = some p := by
      rw [mapGet_mapDelete_ne _ _ _ hne]; exact hp
    simp [onFrameDetached, frameDetach, hf, hpar, hlook, hid]
  · rw [mapGet_mapSet_ne _ _ _ _ (fun h => hne h.symm)]
    exact mapGet_mapDelete_self ..
  · intro t' ht'
    rcases List.mem_map.mp ht' with ⟨t, ht, rfl⟩
    simp [WaitTask.terminate, promiseReject, hpend t ht]

/-- Witness for C5 on the parent-child state with one pending wait task. -/
theorem frame_detach_terminates_tasks_witness :
    onFrameDetached stChild "child" =
      .ok { state := { stChild with
              frames := mapSet (mapDelete stChild.frames "child") "main" prunedMainW },
            events := [.frameDetachedE detachedChildW],
            detachedTasks := termTasksW } ∧
    mapGet (mapSet (mapDelete stChild.frames "child") "main" prunedMainW) "child" = none ∧
    mapGet (mapSet (mapDelete stChild.frames "child") "main" prunedMainW) "main"
      = some prunedMainW ∧
    termTasksW.length = childFrameW.waitTasks.length ∧
    (∀ t' ∈ termTasksW,
      t'.terminated = true ∧ t'.settlement = .rejected detachErrW) :=
  frame_detach_terminates_tasks stChild "child" childFrameW "main" mainParentW
    rfl rfl rfl (by decide) rfl (by decide)

/-! ## C4: `frames()` as a pre-order traversal -/

theorem preorderList_eq_flatten (cs : List FrameTree) :
    FrameTree.preorderList cs = (cs.map FrameTree.preorder).flatten := by
  induction cs with
  | nil => rfl
  | cons t ts ih => simp [FrameTree.preorderList, ih]

theorem height_le_of_mem (cs : List FrameTree) (c : FrameTree) (h : c ∈ cs) :
    c.height ≤ FrameTree.heightList cs := by
  induction cs with
  | nil => simp at h
  | cons t ts ih =>
      rcases List.mem_cons.mp h with rfl | h
      · exact le_max_left _ _ |>.trans_eq (by rw [FrameTree.heightList])
      · exact (ih h).trans ((le_max_right _ _).trans_eq (by rw [FrameTree.heightList]))

theorem mapM_collectFrames (st : FrameManager) (n : Nat) (cs : List FrameTree)
    (h : ∀ c ∈ cs, collectFrames st n c.rootId = some c.preorder) :
    (cs.map FrameTree.rootId).mapM (collectFrames st n) = some (cs.map FrameTree.preorder) := by
  induction cs with
  | nil => rfl
  | cons t ts ih =>
      simp only [List.map_cons, List.mapM_cons, h t (List.mem_cons_self t ts),
        ih (fun c hc => h c (List.mem_cons_of_mem _ hc)), Option.bind_eq_bind,
        Option.some_bind, Option.pure_def]

theorem collectFrames_of_represents (st : FrameManager) (t : FrameTree)
    (h : Represents st t) :
    ∀ fuel, t.height ≤ fuel → collectFrames st fuel t.rootId = some t.preorder := by
  induction h with
  | node id cs f hf hc hcs ih =>
      intro fuel hfuel
      match fuel with
      | 0 => simp [FrameTree.height] at hfuel
      | n + 1 =>
          have hn : FrameTree.heightList cs ≤ n := by
            rw [FrameTree.height] at hfuel; omega
          have hall : ∀ c ∈ cs, collectFrames st n c.rootId = some c.preorder :=
            fun c hcm => ih c hcm n ((height_le_of_mem cs c hcm).trans hn)
          have hm := mapM_collectFrames st n cs hall
          simp only [collectFrames, FrameTree.rootId, hf, hc]
          rw [hm]
          simp [FrameTree.preorder, preorderList_eq_flatten]

mutual

theorem preorder_length : ∀ t : FrameTree, t.preorder.length = t.size
  | .node id cs => by
      rw [FrameTree.preorder, FrameTree.size, List.length_cons,
        preorderList_length cs, Nat.add_comm]

theorem preorderList_length :
    ∀ cs : List FrameTree, (FrameTree.preorderList cs).length = FrameTree.sizeList cs
  | [] => rfl
  | t :: ts => by
      rw [FrameTree.preorderList, FrameTree.sizeList, List.length_append,
        preorder_length t, preorderList_length ts]

end

/-- Counterexample to claim C4 as stated: before any main frame exists,
`frames()` does not return an empty/undefined result — `collect(null)`
dereferences `null._children` and throws a `TypeError`. -/
theorem frames_before_main_throws :
    framesFn initFM 1000 = .error (.typeError "Cannot read property _children of null") := rfl

/-- Claim C4 (amended): when a main frame exists and the arena is tree-shaped
(`Represents`), `frames()` returns exactly the pre-order traversal — root
first, depth-first, children in insertion order — whose length is 1 plus the
total number of descendants of the main frame; but before any main frame
exists `frames()` throws a `TypeError` instead of returning an empty result. -/
theorem frames_preorder_refinement (st : FrameManager) (t : FrameTree) (fuel : Nat)
    (h : Represents st t) (hm : st.mainFrame = some t.rootId)
    (hfuel : t.height ≤ fuel) :
    framesFn st fuel = .ok t.preorder ∧
    t.preorder.length = 1 + t.descendants ∧
    (∀ st' : FrameManager, st'.mainFrame = none →
      framesFn st' fuel = .error (.typeError "Cannot read property _children of null")) := by
  refine ⟨?_, ?_, ?_⟩
  · simp [framesFn, hm, collectFrames_of_represents st t h fuel hfuel]
  · cases t with
    | node id cs =>
        rw [preorder_length, FrameTree.size, FrameTree.descendants]
  · intro st' hm'
    simp [framesFn, hm']

/-- The spec tree of the witness state `stTreeW`. -/
def treeW : FrameTree := .node "main" [.node "a" [], .node "b" []]

/-- A manager whose tree is a main frame with two children. -/
def stTreeW : FrameManager :=
  { mainFrame := some "main",
    frames := [("main", { frameId := "main", children := ["a", "b"] }),
               ("a", { frameId := "a", parentFrame := some "main" }),
               ("b", { frameId := "b", parentFrame := some "main" })] }

/-- Witness for the amended C4 on a three-frame tree. -/
theorem frames_preorder_refinement_witness :
    framesFn stTreeW 5 = .ok treeW.preorder ∧
    treeW.preorder.length = 1 + treeW.descendants ∧
    (∀ st' : FrameManager, st'.mainFrame = none →
      framesFn st' 5 = .error (.typeError "Cannot read property _children of null")) :=
  frames_preorder_refinement stTreeW treeW 5
    (by
      refine Represents.node "main" [.node "a" [], .node "b" []] _ rfl rfl ?_
      intro c hc
      rcases List.mem_cons.mp hc with rfl | hc
      · exact Represents.node "a" [] _ rfl rfl (by intro c hc; simp at hc)
      rcases List.mem_cons.mp hc with rfl | hc
      · exact Represents.node "b" [] _ rfl rfl (by intro c hc; simp at hc)
      · simp at hc)
    rfl
    (by simp [treeW, FrameTree.height, FrameTree.heightList])

/-! ## C1: the single-parentless-frame invariant -/

/-- Every indexed frame without a parent is the main frame. -/
def ParentlessInv (st : FrameManager) : Prop :=
  ∀ p ∈ st.frames, p.2.parentFrame = none → st.mainFrame = some p.1

theorem parentlessInv_initFM : ParentlessInv initFM := by
  intro p hp
  simp [initFM] at hp

theorem parentlessInv_mapSet_update (st : FrameManager) (id : String) (f f' : Frame)
    (h : ParentlessInv st) (hf : mapGet st.frames id = some f)
    (hpar : f'.parentFrame = f.parentFrame) :
    ParentlessInv { st with frames := mapSet st.frames id f' } := by
  intro p hp hnone
  rcases mem_mapSet _ _ _ _ hp with rfl | hm
  · exact h (id, f) (mapGet_some_mem _ _ _ hf) (hpar ▸ hnone)
  · exact h p hm hnone

theorem parentlessInv_mapDelete (st : FrameManager) (id : String)
    (h : ParentlessInv st) :
    ParentlessInv { st with frames := mapDelete st.frames id } := by
  intro p hp hnone
  exact h p (mem_mapDelete _ _ _ hp) hnone

theorem step_preserves_parentlessInv (st : FrameManager) (e : ProtocolEvent)
    (h : ParentlessInv st) : ParentlessInv (step st e) := by
  cases e with
  | frameAttached id pid =>
      cases pid with
      | none =>
          by_cases hmf : st.mainFrame.isSome
          · simp only [step, onFrameAttached, mapGetOpt, hmf, if_true]
            exact h
          · simp only [step, onFrameAttached, mapGetOpt, hmf, if_false]
            intro p hp hnone
            rcases mem_mapSet _ _ _ _ hp with rfl | hm
            · rfl
            · have := h p hm hnone
              rw [Option.not_isSome_iff_eq_none.mp hmf] at this
              exact absurd this (by simp)
      | some pidv =>
          cases hg : mapGet st.frames pidv with
          | none =>
              by_cases hmf : st.mainFrame.isSome
              · simp only [step, onFrameAttached, mapGetOpt, hg, hmf, if_true]
                exact h
              · simp only [step, onFrameAttached, mapGetOpt, hg, hmf, if_false]
                intro p hp hnone
                rcases mem_mapSet _ _ _ _ hp with rfl | hm
                · rfl
                · have := h p hm hnone
                  rw [Option.not_isSome_iff_eq_none.mp hmf] at this
                  exact absurd this (by simp)
          | some parent =>
              simp only [step, onFrameAttached, mapGetOpt, hg]
              intro p hp hnone
              rcases mem_mapSet _ _ _ _ hp with rfl | hm
              · simp [newFrame] at hnone
              rcases mem_mapSet _ _ _ _ hm with rfl | hm'
              · exact h (pidv, parent) (mapGet_some_mem _ _ _ hg) hnone
              · exact h p hm' hnone
  | frameDetached id =>
      cases hg : mapGet st.frames id with
      | none =>
          simp only [step, onFrameDetached, hg]
          exact parentlessInv_mapDelete st id h
      | some f =>
          cases hpar : f.parentFrame with
          | none =>
              simp only [step, onFrameDetached, frameDetach, hg, hpar]
              exact parentlessInv_mapDelete st id h
          | some pidv =>
              cases hg2 : mapGet (mapDelete st.frames id) pidv with
              | none =>
                  simp only [step, onFrameDetached, frameDetach, hg, hpar, hg2]
                  exact parentlessInv_mapDelete st id h
              | some parent =>
                  simp only [step, onFrameDetached, frameDetach, hg, hpar, hg2]
                  intro p hp hnone
                  rcases mem_mapSet _ _ _ _ hp with rfl | hm
                  · exact h (pidv, parent)
                      (mem_mapDelete _ _ _ (mapGet_some_mem _ _ _ hg2)) hnone
                  · exact h p (mem_mapDelete _ _ _ hm) hnone
  | navigationCommitted id url name nav =>
      cases hg : mapGet st.frames id with
      | none => simp only [step, onNavigationCommitted, hg]; exact h
      | some f =>
          simp only [step, onNavigationCommitted, hg]
          exact parentlessInv_mapSet_update st id f _ h hg rfl
  | sameDocumentNavigation id url =>
      cases hg : mapGet st.frames id with
      | none => simp only [step, onSameDocumentNavigation, hg]; exact h
      | some f =>
          simp only [step, onSameDocumentNavigation, hg]
          exact parentlessInv_mapSet_update st id f _ h hg rfl
  | eventFired id name =>
      cases hg : mapGet st.frames id with
      | none => simp only [step, onEventFired, hg]; exact h
      | some f =>
          simp only [step, onEventFired, hg]
          exact parentlessInv_mapSet_update st id f _ h hg rfl

theorem parentlessInv_runEvents (evs : List ProtocolEvent) :
    ParentlessInv (runEvents evs) := by
  suffices hgen : ∀ st, ParentlessInv st → ParentlessInv (evs.foldl step st) from
    hgen initFM parentlessInv_initFM
  induction evs with
  | nil => intro st h; exact h
  | cons e es ih => intro st h; exact ih _ (step_preserves_parentlessInv st e h)

/-- Claim C1: at a reachable state, a frame-attached event whose parent id
does not resolve installs the new frame as the main frame when none exists,
and fails with the fatal re-attachment invariant violation leaving the state
unchanged when a main frame already exists; consequently at most one frame
in the index ever has no parent. -/
theorem frame_attach_main_invariant (st : FrameManager) (hst : Reachable st) :
    (∀ id pid, mapGetOpt st.frames pid = none →
      ((st.mainFrame = none →
          onFrameAttached st id pid =
            .ok { state := { mainFrame := some id, frames := mapSet st.frames id (newFrame id) },
                  events := [.frameAttachedE (newFrame id)] }) ∧
       (∀ mf, st.mainFrame = some mf →
          onFrameAttached st id pid =
            .error ⟨.jsError "INTERNAL ERROR: re-attaching main frame!", st⟩))) ∧
    (∀ p ∈ st.frames, ∀ q ∈ st.frames,
      p.2.parentFrame = none → q.2.parentFrame = none → p.1 = q.1) := by
  obtain ⟨evs, rfl⟩ := hst
  constructor
  · intro id pid hpid
    constructor
    · intro hmf
      cases pid with
      | none => simp [onFrameAttached, mapGetOpt, hmf]
      | some pidv =>
          simp only [mapGetOpt] at hpid
          simp [onFrameAttached, mapGetOpt, hpid, hmf]
    · intro mf hmf
      cases pid with
      | none => simp [onFrameAttached, mapGetOpt, hmf]
      | some pidv =>
          simp only [mapGetOpt] at hpid
          simp [onFrameAttached, mapGetOpt, hpid, hmf]
  · have hinv := parentlessInv_runEvents evs
    intro p hp q hq hpn hqn
    have h1 := hinv p hp hpn
    have h2 := hinv q hq hqn
    rw [h1] at h2
    exact Option.some.inj h2

/-- Witness for C1 at the initial (empty, reachable) manager state. -/
theorem frame_attach_main_invariant_witness :
    onFrameAttached initFM "main" none =
      .ok { state := { mainFrame := some "main",
                       frames := mapSet initFM.frames "main" (newFrame "main") },
            events := [.frameAttachedE (newFrame "main")] } :=
  ((frame_attach_main_invariant initFM ⟨[], rfl⟩).1 "main" none rfl).1 rfl

end Puppeteer
